import Mathlib

/-!
Verification of the enervigil real-time metrics pipeline.

This development shallowly embeds the core of the repository:
the bounded history window (`SlidingWindow`), the listener tick of
`SystemMonitor._listener` (app/analytics/system.py), the lifecycle check of
`SystemMonitor.start`, the `Broadcaster` fan-out primitive
(app/web/broadcast.py), and the SSE framing and generator loop
(app/web/sse/decorator.py).  Machine floats are modelled as rationals,
Python's `None` as `Option`, raised exceptions as `Except`/`Option`.
-/

/--
Modelled from the spec: the class `SlidingWindow` is imported from
`model.struct.sliding_window`, whose source file is not part of the
provided tree.  The spec describes it as a fixed-capacity,
insertion-ordered buffer of samples that evicts the oldest element on
overflow, with `length ≤ max_size` invariant and oldest-to-newest
snapshot order.
-/
structure SlidingWindow (α : Type) where
  max_size : Nat
  window : List α
deriving Repr, DecidableEq

namespace SlidingWindow

/-- Modelled from the spec: a freshly constructed `SlidingWindow(max_size=C)`
holds no samples. -/
def empty (α : Type) (max_size : Nat) : SlidingWindow α :=
  { max_size := max_size, window := [] }

/-- Modelled from the spec: `add` appends the new sample at the newest end
and evicts from the oldest end while the buffer exceeds its capacity. -/
def add (w : SlidingWindow α) (x : α) : SlidingWindow α :=
  let d := w.window ++ [x]
  { w with window := if w.max_size < d.length then d.drop (d.length - w.max_size) else d }

/-- Modelled from the spec: the snapshot accessor returns the buffered
samples oldest-to-newest. -/
def get_list (w : SlidingWindow α) : List α :=
  w.window

theorem add_max_size (w : SlidingWindow α) (x : α) :
    (w.add x).max_size = w.max_size := rfl

theorem empty_get_list (α : Type) (C : Nat) : (empty α C).get_list = [] := rfl

/-- When there is free room, `add` only appends at the newest end. -/
theorem add_window_of_lt (w : SlidingWindow α) (x : α)
    (h : w.window.length < w.max_size) :
    (w.add x).window = w.window ++ [x] := by
  have hcond : ¬ w.max_size < (w.window ++ [x]).length := by
    simp only [List.length_append, List.length_singleton]
    omega
  show (if w.max_size < (w.window ++ [x]).length
      then (w.window ++ [x]).drop ((w.window ++ [x]).length - w.max_size)
      else w.window ++ [x]) = w.window ++ [x]
  rw [if_neg hcond]

/-- When the window is exactly full, `add` appends and evicts the oldest
sample. -/
theorem add_window_of_full (w : SlidingWindow α) (x : α)
    (h : w.window.length = w.max_size) :
    (w.add x).window = (w.window ++ [x]).drop 1 := by
  have hcond : w.max_size < (w.window ++ [x]).length := by
    simp only [List.length_append, List.length_singleton]
    omega
  have hone : (w.window ++ [x]).length - w.max_size = 1 := by
    simp only [List.length_append, List.length_singleton]
    omega
  show (if w.max_size < (w.window ++ [x]).length
      then (w.window ++ [x]).drop ((w.window ++ [x]).length - w.max_size)
      else w.window ++ [x]) = (w.window ++ [x]).drop 1
  rw [if_pos hcond, hone]

/-- Core characterisation: folding `add` over the inserted samples keeps
exactly the suffix of the insertion sequence that fits the capacity. -/
theorem foldl_add_window (C : Nat) (xs L : List α) (hL : L.length ≤ C) :
    (xs.foldl add ⟨C, L⟩).window = (L ++ xs).drop ((L ++ xs).length - C) := by
  induction xs generalizing L with
  | nil =>
      simp only [List.foldl_nil, List.append_nil]
      have h0 : L.length - C = 0 := Nat.sub_eq_zero_of_le hL
      simp [h0]
  | cons x t ih =>
      simp only [List.foldl_cons]
      by_cases hlen : L.length + 1 ≤ C
      · have hadd : add ⟨C, L⟩ x = ⟨C, L ++ [x]⟩ := by
          have h := add_window_of_lt ⟨C, L⟩ x (by simpa using hlen)
          cases hw : add ⟨C, L⟩ x with
          | mk ms win =>
              have hms : ms = C := by
                have := add_max_size ⟨C, L⟩ x
                rw [hw] at this
                simpa using this
              have hwin : win = L ++ [x] := by
                rw [hw] at h
                simpa using h
              rw [hms, hwin]
        rw [hadd, ih (L ++ [x]) (by simpa using hlen)]
        simp [List.append_assoc]
      · have hC : L.length = C := by omega
        have hadd : add ⟨C, L⟩ x = ⟨C, (L ++ [x]).drop 1⟩ := by
          have h := add_window_of_full ⟨C, L⟩ x (by simpa using hC)
          cases hw : add ⟨C, L⟩ x with
          | mk ms win =>
              have hms : ms = C := by
                have := add_max_size ⟨C, L⟩ x
                rw [hw] at this
                simpa using this
              have hwin : win = (L ++ [x]).drop 1 := by
                rw [hw] at h
                simpa using h
              rw [hms, hwin]
        have hdroplen : ((L ++ [x]).drop 1).length ≤ C := by
          simp only [List.length_drop, List.length_append, List.length_singleton]
          omega
        rw [hadd, ih _ hdroplen]
        have hsplit : (L ++ [x]).drop 1 ++ t = (L ++ x :: t).drop 1 := by
          have hassoc : L ++ x :: t = (L ++ [x]) ++ t := by simp
          have hz : 1 - (L ++ [x]).length = 0 := by
            simp only [List.length_append, List.length_singleton]
            omega
          conv_rhs => rw [hassoc, List.drop_append_eq_append_drop, hz, List.drop_zero]
        rw [hsplit, List.drop_drop]
        congr 1
        have hlen1 : ((L ++ x :: t).drop 1).length = C + t.length := by
          simp only [List.length_drop, List.length_append, List.length_cons]
          omega
        have hlen2 : (L ++ x :: t).length = C + 1 + t.length := by
          simp only [List.length_append, List.length_cons]
          omega
        omega

end SlidingWindow

/-- **C1.** For every History Window of capacity `C` and every sequence of
`N` insertions: if `N ≤ C` the snapshot is exactly the `N` inserted values
in insertion order; if `N > C` it is the most recent `C` values,
oldest-first; and the length never exceeds `C`. -/
theorem slidingWindow_snapshot_spec (α : Type) (C : Nat) (xs : List α) :
    (xs.length ≤ C →
      (xs.foldl SlidingWindow.add (SlidingWindow.empty α C)).get_list = xs) ∧
    (C < xs.length →
      (xs.foldl SlidingWindow.add (SlidingWindow.empty α C)).get_list
        = xs.drop (xs.length - C)) ∧
    (xs.foldl SlidingWindow.add (SlidingWindow.empty α C)).get_list.length ≤ C := by
  have hmain : (xs.foldl SlidingWindow.add (SlidingWindow.empty α C)).window
      = xs.drop (xs.length - C) := by
    have := SlidingWindow.foldl_add_window C xs ([] : List α) (by simp)
    simpa using this
  refine ⟨?_, ?_, ?_⟩
  · intro hle
    have h0 : xs.length - C = 0 := Nat.sub_eq_zero_of_le hle
    simp [SlidingWindow.get_list, hmain, h0]
  · intro _
    simp [SlidingWindow.get_list, hmain]
  · simp only [SlidingWindow.get_list, hmain, List.length_drop]
    omega

/-- Witness for C1 at a concrete capacity and insertion sequence. -/
theorem slidingWindow_snapshot_spec_witness :
    (([1, 2] : List Nat).foldl SlidingWindow.add (SlidingWindow.empty Nat 3)).get_list
        = [1, 2] ∧
    (([1, 2, 3, 4, 5] : List Nat).foldl SlidingWindow.add
        (SlidingWindow.empty Nat 3)).get_list = [3, 4, 5] := by
  constructor
  · exact (slidingWindow_snapshot_spec Nat 3 [1, 2]).1 (by decide)
  · have h := (slidingWindow_snapshot_spec Nat 3 [1, 2, 3, 4, 5]).2.1 (by decide)
    simpa using h

/-!
## Listener embedding (`SystemMonitor._listener`, app/analytics/system.py)

Machine floats become rationals; a value that Python encodes as NaN
(`cpu_temperature`) becomes `Option ℚ` with `none` for NaN, matching the
`math.isnan` test at line 290.  Python `round(x, 2)` is modelled as exact
round-half-to-even at two decimals.
-/

/-- Python round-half-to-even of a rational to the nearest integer. -/
def roundHalfEvenInt (q : ℚ) : ℤ :=
  let f : ℤ := ⌊q⌋
  if q - f < 1/2 then f
  else if (1 : ℚ)/2 < q - f then f + 1
  else if f % 2 = 0 then f else f + 1

/-- Python `round(x, 2)`: round-half-to-even at two decimal places. -/
def round2 (q : ℚ) : ℚ :=
  (roundHalfEvenInt (q * 100) : ℚ) / 100

/-- The `SharedSystemData` ctypes record (app/analytics/system.py, lines
61-72), as read by the listener through its properties.  The float
`cpu_temperature` carries NaN in-band; here `none` stands for NaN. -/
structure SharedSystemData where
  cpu_usage : ℚ
  ram_available : Nat
  total_ram : Nat
  disk_usage : Nat
  disk_total : Nat
  disk_read : Nat
  disk_write : Nat
  disk_usage_valid : Bool
  disk_io_valid : Bool
  cpu_temperature : Option ℚ
deriving Repr, DecidableEq

/-- The realtime snapshot record mutated by the listener (lines 306-314)
and returned by `get_realtime_data`.  Its class `RealTimeSystemData` lives
in `model/analytics/system.py`, not under src/; the fields are taken from
the listener's writes and the spec's Realtime Snapshot description. -/
structure RealTimeSystemData where
  cpu_use_perc : ℚ
  ram_use_perc : ℚ
  ram_usage : Int
  total_ram : Nat
  disk_usage : Option Nat
  disk_total : Option Nat
  disk_read : Option Nat
  disk_write : Option Nat
  cpu_temp : Option ℚ
  boot_date : String
deriving Repr, DecidableEq

/-- Modelled from the spec: `RealTimeSystemData(boot_date=...)` is
constructed once at pipeline construction with only the boot date set
(its constructor defaults are not under src/). -/
def initRealTimeSystemData (boot_date : String) : RealTimeSystemData :=
  { cpu_use_perc := 0, ram_use_perc := 0, ram_usage := 0, total_ram := 0,
    disk_usage := none, disk_total := none, disk_read := none,
    disk_write := none, cpu_temp := none, boot_date := boot_date }

/-- The per-tick values the listener computes from the block
(lines 282-290) before touching any shared structure. -/
structure SnapshotTickValues where
  cpu_use_perc : ℚ
  ram_use_perc : ℚ
  ram_usage : Int
  total_ram : Nat
  disk_usage : Option Nat
  disk_total : Option Nat
  disk_read : Option Nat
  disk_write : Option Nat
  cpu_temp : Option ℚ
deriving Repr, DecidableEq

/-- Lines 282-290 of app/analytics/system.py: derive the tick values from
the block.  The division by `total_ram` is guarded nowhere in the source;
the zero case is surfaced in `listenerTick` below. -/
def tickValues (d : SharedSystemData) : SnapshotTickValues :=
  { cpu_use_perc := round2 d.cpu_usage,
    ram_use_perc :=
      round2 ((((d.total_ram : ℚ) - (d.ram_available : ℚ)) / (d.total_ram : ℚ)) * 100),
    ram_usage := (d.total_ram : Int) - (d.ram_available : Int),
    total_ram := d.total_ram,
    disk_usage := if d.disk_usage_valid then some d.disk_usage else none,
    disk_total := if d.disk_usage_valid then some d.disk_total else none,
    disk_read := if d.disk_io_valid then some d.disk_read else none,
    disk_write := if d.disk_io_valid then some d.disk_write else none,
    cpu_temp := Option.map round2 d.cpu_temperature }

/-- Lines 294-304: a disk rate sample is computed and appended only when
the current counter is valid and a previous counter exists; the rate is
the counter delta over the polling interval, zeroed when negative. -/
def diskSpeedUpdate (interval : ℚ) (cur prev : Option Nat)
    (w : SlidingWindow ℚ) : SlidingWindow ℚ :=
  match cur, prev with
  | some c, some p =>
      let speed := ((c : ℚ) - (p : ℚ)) / interval
      w.add (if speed < 0 then 0 else speed)
  | _, _ => w

/-- Lines 306-314: the listener's nine successive field assignments to the
shared snapshot object, in source order.  Each list element is one
assignment; a concurrent reader can observe the object between any two of
them. -/
def snapshotWrites (v : SnapshotTickValues) :
    List (RealTimeSystemData → RealTimeSystemData) :=
  [fun r => { r with cpu_use_perc := v.cpu_use_perc },
   fun r => { r with ram_use_perc := v.ram_use_perc },
   fun r => { r with ram_usage := v.ram_usage },
   fun r => { r with total_ram := v.total_ram },
   fun r => { r with disk_usage := v.disk_usage },
   fun r => { r with disk_total := v.disk_total },
   fun r => { r with disk_read := v.disk_read },
   fun r => { r with disk_write := v.disk_write },
   fun r => { r with cpu_temp := v.cpu_temp }]

/-- The snapshot after all nine assignments have landed. -/
def applySnapshotWrites (r : RealTimeSystemData) (v : SnapshotTickValues) :
    RealTimeSystemData :=
  (snapshotWrites v).foldl (fun a f => f a) r

/-- Every state of the shared snapshot object that a reader interleaved
with the listener's assignment sequence can observe: before any write,
between any two writes, or after the last. -/
def snapshotReadPoints (r : RealTimeSystemData) (v : SnapshotTickValues) :
    List RealTimeSystemData :=
  (snapshotWrites v).scanl (fun a f => f a) r

/-- The listener-owned mutable state of `SystemMonitor` (lines 144-158,
273-274). -/
structure ListenerState where
  cpu_usage_perc : SlidingWindow ℚ
  ram_usage_perc : SlidingWindow ℚ
  disk_read_speed : SlidingWindow ℚ
  disk_write_speed : SlidingWindow ℚ
  realtime_data : RealTimeSystemData
  data_updated : Bool
  prev_disk_read : Option Nat
  prev_disk_write : Option Nat
deriving Repr, DecidableEq

/-- `SystemMonitor.DATA_SIZE_SECONDS` (line 142). -/
def DATA_SIZE_SECONDS : Nat := 60

/-- `SystemMonitor.POLLING_INTERVAL_SECONDS` (line 141). -/
def POLLING_INTERVAL_SECONDS : ℚ := 1

/-- Listener-visible state right after `SystemMonitor.__init__` and the
listener's own initialisation (`prev_disk_read = prev_disk_write = None`,
lines 144-158 and 273-274). -/
def initListenerState (boot_date : String) : ListenerState :=
  { cpu_usage_perc := SlidingWindow.empty ℚ DATA_SIZE_SECONDS,
    ram_usage_perc := SlidingWindow.empty ℚ DATA_SIZE_SECONDS,
    disk_read_speed := SlidingWindow.empty ℚ DATA_SIZE_SECONDS,
    disk_write_speed := SlidingWindow.empty ℚ DATA_SIZE_SECONDS,
    realtime_data := initRealTimeSystemData boot_date,
    data_updated := false,
    prev_disk_read := none,
    prev_disk_write := none }

/-- One body iteration of `SystemMonitor._listener` (lines 282-318) after
the update event fired.  The Python code divides by `total_ram` with no
guard; a zero `total_ram` raises `ZeroDivisionError`, modelled as `none`. -/
def listenerTick (interval : ℚ) (d : SharedSystemData) (s : ListenerState) :
    Option ListenerState :=
  if d.total_ram = 0 then none
  else
    let v := tickValues d
    some
      { cpu_usage_perc := s.cpu_usage_perc.add v.cpu_use_perc,
        ram_usage_perc := s.ram_usage_perc.add v.ram_use_perc,
        disk_read_speed :=
          diskSpeedUpdate interval v.disk_read s.prev_disk_read s.disk_read_speed,
        disk_write_speed :=
          diskSpeedUpdate interval v.disk_write s.prev_disk_write s.disk_write_speed,
        realtime_data := applySnapshotWrites s.realtime_data v,
        data_updated := true,
        prev_disk_read := v.disk_read,
        prev_disk_write := v.disk_write }

/-- `SystemMonitor.get_realtime_data` (lines 366-374): returns the very
snapshot object the listener mutates, not a copy. -/
def get_realtime_data (s : ListenerState) : RealTimeSystemData :=
  s.realtime_data

/-! ### Listener lemmas -/

theorem clamp_eq_max (q : ℚ) : (if q < 0 then 0 else q) = max 0 q := by
  by_cases h : q < 0
  · rw [if_pos h, max_eq_left (le_of_lt h)]
  · rw [if_neg h, max_eq_right (le_of_not_lt h)]

theorem diskSpeedUpdate_prev_none (interval : ℚ) (cur : Option Nat)
    (w : SlidingWindow ℚ) : diskSpeedUpdate interval cur none w = w := by
  cases cur <;> rfl

theorem diskSpeedUpdate_some_some (interval : ℚ) (c p : Nat)
    (w : SlidingWindow ℚ) :
    diskSpeedUpdate interval (some c) (some p) w
      = w.add (max 0 (((c : ℚ) - (p : ℚ)) / interval)) := by
  show w.add (if ((c : ℚ) - (p : ℚ)) / interval < 0 then 0
      else ((c : ℚ) - (p : ℚ)) / interval) = _
  rw [clamp_eq_max]

theorem listenerTick_eq (interval : ℚ) (d : SharedSystemData)
    (s : ListenerState) (hram : d.total_ram ≠ 0) :
    listenerTick interval d s = some
      { cpu_usage_perc := s.cpu_usage_perc.add (tickValues d).cpu_use_perc,
        ram_usage_perc := s.ram_usage_perc.add (tickValues d).ram_use_perc,
        disk_read_speed :=
          diskSpeedUpdate interval (tickValues d).disk_read
            s.prev_disk_read s.disk_read_speed,
        disk_write_speed :=
          diskSpeedUpdate interval (tickValues d).disk_write
            s.prev_disk_write s.disk_write_speed,
        realtime_data := applySnapshotWrites s.realtime_data (tickValues d),
        data_updated := true,
        prev_disk_read := (tickValues d).disk_read,
        prev_disk_write := (tickValues d).disk_write } := by
  simp [listenerTick, hram]

/-- **C2.** On a listener tick with valid disk IO and a previous cumulative
counter, the appended disk read/write rate sample equals the counter delta
divided by the polling interval, clamped below at zero. -/
theorem listener_disk_rate_spec (interval : ℚ) (d : SharedSystemData)
    (s : ListenerState) (r0 w0 : Nat)
    (hram : d.total_ram ≠ 0) (hio : d.disk_io_valid = true)
    (hr : s.prev_disk_read = some r0) (hw : s.prev_disk_write = some w0) :
    ∃ s', listenerTick interval d s = some s' ∧
      s'.disk_read_speed
        = s.disk_read_speed.add (max 0 (((d.disk_read : ℚ) - (r0 : ℚ)) / interval)) ∧
      s'.disk_write_speed
        = s.disk_write_speed.add (max 0 (((d.disk_write : ℚ) - (w0 : ℚ)) / interval)) := by
  refine ⟨_, listenerTick_eq interval d s hram, ?_, ?_⟩
  · show diskSpeedUpdate interval (tickValues d).disk_read
        s.prev_disk_read s.disk_read_speed = _
    have hv : (tickValues d).disk_read = some d.disk_read := by
      simp [tickValues, hio]
    rw [hv, hr, diskSpeedUpdate_some_some]
  · show diskSpeedUpdate interval (tickValues d).disk_write
        s.prev_disk_write s.disk_write_speed = _
    have hv : (tickValues d).disk_write = some d.disk_write := by
      simp [tickValues, hio]
    rw [hv, hw, diskSpeedUpdate_some_some]

/-- Concrete tick input for the C2 witness: cumulative read counter
decreases 1500 to 1000, write counter increases 1000 to 1500, one
1-second interval apart. -/
def c2Block : SharedSystemData :=
  { cpu_usage := 0, ram_available := 0, total_ram := 1, disk_usage := 0,
    disk_total := 0, disk_read := 1000, disk_write := 1500,
    disk_usage_valid := false, disk_io_valid := true, cpu_temperature := none }

def c2State : ListenerState :=
  { initListenerState "" with
      prev_disk_read := some 1500, prev_disk_write := some 1000 }

/-- Witness for C2: a counter decrease yields rate 0 and a 500-byte
increase over 1 second yields rate 500. -/
theorem listener_disk_rate_spec_witness :
    ∃ s', listenerTick 1 c2Block c2State = some s' ∧
      s'.disk_read_speed = c2State.disk_read_speed.add 0 ∧
      s'.disk_write_speed = c2State.disk_write_speed.add 500 := by
  obtain ⟨s', h1, h2, h3⟩ :=
    listener_disk_rate_spec 1 c2Block c2State 1500 1000
      (by decide) rfl rfl rfl
  refine ⟨s', h1, ?_, ?_⟩
  · rw [h2]
    norm_num [c2Block, max_def]
  · rw [h3]
    norm_num [c2Block, max_def]

/-- **C3.** Starting from pipeline start (no previous counters), the first
processed tick appends no disk-rate sample, and the second processed tick
appends exactly one to each rate window, when disk IO is valid both times. -/
theorem listener_first_second_tick (boot : String) (d1 d2 : SharedSystemData)
    (h1 : d1.total_ram ≠ 0) (h2 : d2.total_ram ≠ 0)
    (hio1 : d1.disk_io_valid = true) (hio2 : d2.disk_io_valid = true) :
    ∃ s1 s2,
      listenerTick POLLING_INTERVAL_SECONDS d1 (initListenerState boot) = some s1 ∧
      s1.disk_read_speed.get_list = [] ∧
      s1.disk_write_speed.get_list = [] ∧
      listenerTick POLLING_INTERVAL_SECONDS d2 s1 = some s2 ∧
      s2.disk_read_speed.get_list.length = 1 ∧
      s2.disk_write_speed.get_list.length = 1 := by
  refine ⟨_, _, listenerTick_eq _ d1 _ h1, ?_, ?_, listenerTick_eq _ d2 _ h2, ?_, ?_⟩
  · show (diskSpeedUpdate POLLING_INTERVAL_SECONDS (tickValues d1).disk_read
        (initListenerState boot).prev_disk_read
        (initListenerState boot).disk_read_speed).get_list = []
    rw [show (initListenerState boot).prev_disk_read = none from rfl,
      diskSpeedUpdate_prev_none]
    rfl
  · show (diskSpeedUpdate POLLING_INTERVAL_SECONDS (tickValues d1).disk_write
        (initListenerState boot).prev_disk_write
        (initListenerState boot).disk_write_speed).get_list = []
    rw [show (initListenerState boot).prev_disk_write = none from rfl,
      diskSpeedUpdate_prev_none]
    rfl
  · have hv2 : (tickValues d2).disk_read = some d2.disk_read := by
      simp [tickValues, hio2]
    have hv1 : (tickValues d1).disk_read = some d1.disk_read := by
      simp [tickValues, hio1]
    show (diskSpeedUpdate POLLING_INTERVAL_SECONDS (tickValues d2).disk_read
        (tickValues d1).disk_read
        (diskSpeedUpdate POLLING_INTERVAL_SECONDS (tickValues d1).disk_read
          (initListenerState boot).prev_disk_read
          (initListenerState boot).disk_read_speed)).get_list.length = 1
    rw [hv1, hv2, show (initListenerState boot).prev_disk_read = none from rfl,
      diskSpeedUpdate_prev_none, diskSpeedUpdate_some_some]
    rfl
  · have hv2 : (tickValues d2).disk_write = some d2.disk_write := by
      simp [tickValues, hio2]
    have hv1 : (tickValues d1).disk_write = some d1.disk_write := by
      simp [tickValues, hio1]
    show (diskSpeedUpdate POLLING_INTERVAL_SECONDS (tickValues d2).disk_write
        (tickValues d1).disk_write
        (diskSpeedUpdate POLLING_INTERVAL_SECONDS (tickValues d1).disk_write
          (initListenerState boot).prev_disk_write
          (initListenerState boot).disk_write_speed)).get_list.length = 1
    rw [hv1, hv2, show (initListenerState boot).prev_disk_write = none from rfl,
      diskSpeedUpdate_prev_none, diskSpeedUpdate_some_some]
    rfl

/-- Concrete blocks for the C3 witness. -/
def c3Block1 : SharedSystemData :=
  { cpu_usage := 10, ram_available := 50, total_ram := 100, disk_usage := 0,
    disk_total := 0, disk_usage_valid := false, disk_read := 1000,
    disk_write := 2000, disk_io_valid := true, cpu_temperature := none }

def c3Block2 : SharedSystemData :=
  { c3Block1 with disk_read := 1500, disk_write := 2500 }

/-- Witness for C3 at two concrete ticks. -/
theorem listener_first_second_tick_witness :
    ∃ s1 s2,
      listenerTick POLLING_INTERVAL_SECONDS c3Block1 (initListenerState "b") = some s1 ∧
      s1.disk_read_speed.get_list = [] ∧
      s1.disk_write_speed.get_list = [] ∧
      listenerTick POLLING_INTERVAL_SECONDS c3Block2 s1 = some s2 ∧
      s2.disk_read_speed.get_list.length = 1 ∧
      s2.disk_write_speed.get_list.length = 1 :=
  listener_first_second_tick "b" c3Block1 c3Block2
    (by decide) (by decide) rfl rfl

/-- **C10.** The listener's RAM computation divides by the block's total-RAM
field with no guard; when that field is nonzero the tick is total (the
division-error branch is unreachable) and the snapshot RAM percentage is
`(total − available)/total × 100` rounded to two decimals. -/
theorem listener_ram_percent_total (interval : ℚ) (d : SharedSystemData)
    (s : ListenerState) (hram : d.total_ram ≠ 0) :
    ∃ s', listenerTick interval d s = some s' ∧
      s'.realtime_data.ram_use_perc
        = round2 ((((d.total_ram : ℚ) - (d.ram_available : ℚ))
            / (d.total_ram : ℚ)) * 100) := by
  refine ⟨_, listenerTick_eq interval d s hram, ?_⟩
  rfl

/-- Witness for C10: total 100 bytes, 25 available, gives 75.0 percent. -/
theorem listener_ram_percent_total_witness :
    ∃ s', listenerTick 1
        { cpu_usage := 0, ram_available := 25, total_ram := 100,
          disk_usage := 0, disk_total := 0, disk_read := 0, disk_write := 0,
          disk_usage_valid := false, disk_io_valid := false,
          cpu_temperature := none }
        (initListenerState "b") = some s' ∧
      s'.realtime_data.ram_use_perc = 75 := by
  obtain ⟨s', h1, h2⟩ :=
    listener_ram_percent_total 1
      { cpu_usage := 0, ram_available := 25, total_ram := 100,
        disk_usage := 0, disk_total := 0, disk_read := 0, disk_write := 0,
        disk_usage_valid := false, disk_io_valid := false,
        cpu_temperature := none }
      (initListenerState "b") (by decide)
  refine ⟨s', h1, ?_⟩
  rw [h2]
  norm_num [round2, roundHalfEvenInt]

/-! ### C9: torn reads of the realtime snapshot

The listener assigns the nine snapshot fields one by one to the shared
`realtime_data` object (lines 306-314) and `get_realtime_data` (lines
366-374) returns that same object, so a reader running concurrently with
the listener thread can observe the object between two assignments.
`snapshotReadPoints` lists exactly those observation points.
-/

/-- Concrete block for refuting C9: every snapshot field changes on this
tick when starting from a fresh snapshot. -/
def c9Block : SharedSystemData :=
  { cpu_usage := 50, ram_available := 50, total_ram := 100, disk_usage := 10,
    disk_total := 20, disk_read := 30, disk_write := 40,
    disk_usage_valid := true, disk_io_valid := true, cpu_temperature := none }

/-- **C9, counterexample.** At a concrete tick from a fresh snapshot there
is a reader-observable state of the shared snapshot object that is neither
the pre-tick snapshot nor the post-tick snapshot: the update is not an
atomic replacement or guarded copy. -/
theorem realtime_snapshot_atomic_counterexample :
    ¬ (∀ r ∈ snapshotReadPoints (initRealTimeSystemData "boot")
          (tickValues c9Block),
        r = initRealTimeSystemData "boot"
          ∨ r = applySnapshotWrites (initRealTimeSystemData "boot")
              (tickValues c9Block)) := by
  intro h
  have hmem : ({ initRealTimeSystemData "boot" with
      cpu_use_perc := (tickValues c9Block).cpu_use_perc } : RealTimeSystemData)
      ∈ snapshotReadPoints (initRealTimeSystemData "boot") (tickValues c9Block) := by
    simp [snapshotReadPoints, snapshotWrites, List.scanl]
  rcases h _ hmem with h1 | h1
  · have hc := congrArg RealTimeSystemData.cpu_use_perc h1
    have hl : ({ initRealTimeSystemData "boot" with
        cpu_use_perc := (tickValues c9Block).cpu_use_perc }
        : RealTimeSystemData).cpu_use_perc
        = (tickValues c9Block).cpu_use_perc := rfl
    rw [hl] at hc
    revert hc
    norm_num [initRealTimeSystemData, tickValues, c9Block, round2,
      roundHalfEvenInt]
  · have hc := congrArg RealTimeSystemData.ram_use_perc h1
    have hl : ({ initRealTimeSystemData "boot" with
        cpu_use_perc := (tickValues c9Block).cpu_use_perc }
        : RealTimeSystemData).ram_use_perc = 0 := rfl
    have hrr : (applySnapshotWrites (initRealTimeSystemData "boot")
        (tickValues c9Block)).ram_use_perc
        = (tickValues c9Block).ram_use_perc := rfl
    rw [hl, hrr] at hc
    revert hc
    norm_num [tickValues, c9Block, round2, roundHalfEvenInt]

/-- **C9, amended.** The listener updates the shared snapshot field by
field; whenever a tick changes both the cpu and the ram percentage, a
reader interleaved between the first and the second field assignment
observes a torn snapshot, different from both the pre-tick and the
post-tick snapshot. -/
theorem realtime_snapshot_fieldwise_torn (r0 : RealTimeSystemData)
    (v : SnapshotTickValues)
    (hcpu : v.cpu_use_perc ≠ r0.cpu_use_perc)
    (hram : v.ram_use_perc ≠ r0.ram_use_perc) :
    ∃ r ∈ snapshotReadPoints r0 v,
      r ≠ r0 ∧ r ≠ applySnapshotWrites r0 v := by
  refine ⟨{ r0 with cpu_use_perc := v.cpu_use_perc }, ?_, ?_, ?_⟩
  · simp [snapshotReadPoints, snapshotWrites, List.scanl]
  · intro h
    exact hcpu (congrArg RealTimeSystemData.cpu_use_perc h)
  · intro h
    have hh := congrArg RealTimeSystemData.ram_use_perc h
    have hl : ({ r0 with cpu_use_perc := v.cpu_use_perc }
        : RealTimeSystemData).ram_use_perc = r0.ram_use_perc := rfl
    have hrr : (applySnapshotWrites r0 v).ram_use_perc = v.ram_use_perc := rfl
    rw [hl, hrr] at hh
    exact hram hh.symm

/-- Witness for the amended C9 at the concrete tick of `c9Block`. -/
theorem realtime_snapshot_fieldwise_torn_witness :
    ∃ r ∈ snapshotReadPoints (initRealTimeSystemData "boot")
        (tickValues c9Block),
      r ≠ initRealTimeSystemData "boot"
        ∧ r ≠ applySnapshotWrites (initRealTimeSystemData "boot")
            (tickValues c9Block) := by
  apply realtime_snapshot_fieldwise_torn
  · norm_num [tickValues, c9Block, initRealTimeSystemData, round2,
      roundHalfEvenInt]
  · norm_num [tickValues, c9Block, initRealTimeSystemData, round2,
      roundHalfEvenInt]

/-!
## Pipeline controller lifecycle (`SystemMonitor.start`, lines 160-187)

Handles (shared memory block, writer process, listener thread) are
modelled by `Option Unit` presence flags, the multiprocessing/threading
events by `Bool`.  A raised `RuntimeError` is the `Except.error` result;
the already-running check is the first statement of `start`, so a failing
call returns the state it received.
-/

structure MonitorState where
  shared_memory : Option Unit
  writer_process : Option Unit
  listener_thread : Option Unit
  update_event : Bool
  stop_writer_event : Bool
  stop_listener_event : Bool
  data_updated : Bool
deriving Repr, DecidableEq

/-- `SystemMonitor.__init__` (lines 144-158): no handles allocated. -/
def initMonitorState : MonitorState :=
  { shared_memory := none, writer_process := none, listener_thread := none,
    update_event := false, stop_writer_event := false,
    stop_listener_event := false, data_updated := false }

/-- `SystemMonitor.start` (lines 160-187): raise `RuntimeError` if any
handle is already allocated, otherwise clear the three events, allocate
the shared block and spawn the writer process and listener thread. -/
def SystemMonitor.start (s : MonitorState) :
    Except String Unit × MonitorState :=
  if s.writer_process.isSome || s.listener_thread.isSome
      || s.shared_memory.isSome then
    (Except.error "SystemMonitor is already running.", s)
  else
    (Except.ok (),
      { s with
          update_event := false,
          stop_writer_event := false,
          stop_listener_event := false,
          shared_memory := some (),
          writer_process := some (),
          listener_thread := some () })

/-- **C4.** A second `start()` without an intervening `stop()` raises the
lifecycle `RuntimeError` and leaves every part of the monitor state as the
first call left it: events, shared block, process and thread handles. -/
theorem monitor_double_start (s : MonitorState)
    (h : (SystemMonitor.start s).1 = Except.ok ()) :
    SystemMonitor.start (SystemMonitor.start s).2
      = (Except.error "SystemMonitor is already running.",
         (SystemMonitor.start s).2) := by
  by_cases hc : s.writer_process.isSome || s.listener_thread.isSome
      || s.shared_memory.isSome
  · exfalso
    rw [SystemMonitor.start, if_pos hc] at h
    exact Except.noConfusion h
  · rw [show (SystemMonitor.start s).2
        = { s with
              update_event := false,
              stop_writer_event := false,
              stop_listener_event := false,
              shared_memory := some (),
              writer_process := some (),
              listener_thread := some () } from by
      rw [SystemMonitor.start, if_neg hc]]
    rw [SystemMonitor.start, if_pos (by simp)]

/-- Witness for C4 starting from the freshly constructed monitor. -/
theorem monitor_double_start_witness :
    SystemMonitor.start (SystemMonitor.start initMonitorState).2
      = (Except.error "SystemMonitor is already running.",
         (SystemMonitor.start initMonitorState).2) :=
  monitor_double_start initMonitorState rfl

/-!
## Broadcaster (app/web/broadcast.py)

Subscriber tokens (`asyncio.Event` objects) are identified by natural
numbers allocated from a freshness counter; `signaled` is the set of
tokens whose internal flag is set, `signal` the producer event's flag, and
`signal_task` whether the fan-out relay task currently exists.
-/

structure Broadcaster where
  events : Finset Nat
  signaled : Finset Nat
  signal : Bool
  signal_task : Bool
  next_token : Nat
deriving DecidableEq

namespace Broadcaster

/-- `Broadcaster.__init__` (lines 23-27): no subscribers, no relay task. -/
def init (signal : Bool) : Broadcaster :=
  { events := ∅, signaled := ∅, signal := signal,
    signal_task := false, next_token := 0 }

/-- `Broadcaster.subscribe` (lines 50-66): allocate a fresh event, set it
(pre-signaled), register it, and start the relay task if none exists.
Returns the new state and the token. -/
def subscribe (b : Broadcaster) : Broadcaster × Nat :=
  ({ b with
      events := insert b.next_token b.events,
      signaled := insert b.next_token b.signaled,
      signal_task := true,
      next_token := b.next_token + 1 },
   b.next_token)

/-- `Broadcaster.unsubscribe` (lines 68-88): discard the token and, when
the subscriber set became empty and a relay task exists, cancel and clear
the task. -/
def unsubscribe (b : Broadcaster) (e : Nat) : Broadcaster :=
  let evs := b.events.erase e
  { b with
      events := evs,
      signal_task := if evs = ∅ ∧ b.signal_task then false else b.signal_task }

/-- `Broadcaster.shutdown` (lines 29-48): clear all subscriber events and
cancel the relay task. -/
def shutdown (b : Broadcaster) : Broadcaster :=
  { b with events := ∅, signal_task := false }

/-- One iteration of the relay loop `wait_for_signal` (lines 90-104) when
the producer signal is set: clear it, then set every registered
subscriber event. -/
def relayStep (b : Broadcaster) : Broadcaster :=
  if b.signal then
    { b with signal := false, signaled := b.signaled ∪ b.events }
  else b

/-- The producer fires the shared signal. -/
def fireSignal (b : Broadcaster) : Broadcaster :=
  { b with signal := true }

/-- The operations that can interleave on one broadcaster. -/
inductive Op where
  | subscribe : Op
  | unsubscribe : Nat → Op
  | shutdown : Op
  | fire : Op
  | relay : Op
deriving Repr, DecidableEq

def applyOp (b : Broadcaster) (op : Op) : Broadcaster :=
  match op with
  | .subscribe => (b.subscribe).1
  | .unsubscribe e => b.unsubscribe e
  | .shutdown => b.shutdown
  | .fire => b.fireSignal
  | .relay => b.relayStep

/-- The lifecycle invariant: a relay task exists iff there is a
subscriber. -/
def taskInvariant (b : Broadcaster) : Prop :=
  b.signal_task = true ↔ b.events ≠ ∅

/-- Tokens held in the subscriber set are always below the freshness
counter. -/
def tokensFresh (b : Broadcaster) : Prop :=
  ∀ t ∈ b.events, t < b.next_token

theorem applyOp_taskInvariant (b : Broadcaster) (op : Op)
    (h : taskInvariant b) : taskInvariant (applyOp b op) := by
  cases op with
  | subscribe =>
      simp [taskInvariant, applyOp, subscribe]
  | unsubscribe e =>
      simp only [taskInvariant, applyOp, unsubscribe] at h ⊢
      by_cases he : b.events.erase e = ∅
      · simp only [he, true_and]
        constructor
        · intro hh
          by_cases ht : b.signal_task <;> simp [ht] at hh
        · intro hh
          exact absurd rfl hh
      · have hne : b.events ≠ ∅ := by
          intro hb
          exact he (by simp [hb])
        simp only [he, false_and, if_false]
        constructor
        · intro _
          exact he
        · intro _
          exact h.mpr hne
  | shutdown =>
      simp [taskInvariant, applyOp, shutdown]
  | fire =>
      simpa [taskInvariant, applyOp, fireSignal] using h
  | relay =>
      simp only [taskInvariant, applyOp, relayStep] at h ⊢
      by_cases hs : b.signal <;> simp [hs, h]

theorem applyOp_tokensFresh (b : Broadcaster) (op : Op)
    (h : tokensFresh b) : tokensFresh (applyOp b op) := by
  cases op with
  | subscribe =>
      intro t ht
      simp only [applyOp, subscribe, Finset.mem_insert] at ht
      rcases ht with rfl | ht
      · simp only [applyOp, subscribe]
        omega
      · have := h t ht
        simp only [applyOp, subscribe]
        omega
  | unsubscribe e =>
      intro t ht
      simp only [applyOp, unsubscribe] at ht
      exact h t (Finset.mem_of_mem_erase ht)
  | shutdown =>
      intro t ht
      simp [applyOp, shutdown] at ht
  | fire =>
      intro t ht
      exact h t ht
  | relay =>
      intro t ht
      simp only [applyOp, relayStep] at ht ⊢
      by_cases hs : b.signal
      · simp only [hs, if_true] at ht ⊢
        exact h t ht
      · simp only [hs, if_false] at ht ⊢
        exact h t ht

theorem foldl_applyOp_taskInvariant (ops : List Op) (b : Broadcaster)
    (h : taskInvariant b) : taskInvariant (ops.foldl applyOp b) := by
  induction ops generalizing b with
  | nil => exact h
  | cons op rest ih =>
      exact ih _ (applyOp_taskInvariant b op h)

theorem foldl_applyOp_tokensFresh (ops : List Op) (b : Broadcaster)
    (h : tokensFresh b) : tokensFresh (ops.foldl applyOp b) := by
  induction ops generalizing b with
  | nil => exact h
  | cons op rest ih =>
      exact ih _ (applyOp_tokensFresh b op h)

end Broadcaster

/-- **C5.** After any sequence of broadcaster operations starting from a
fresh broadcaster, a relay task exists iff the subscriber set is
non-empty: the first subscribe starts it, removal of the last subscriber
stops and clears it, shutdown clears both. -/
theorem broadcaster_relay_task_invariant (signal : Bool)
    (ops : List Broadcaster.Op) :
    Broadcaster.taskInvariant (ops.foldl Broadcaster.applyOp
      (Broadcaster.init signal)) := by
  apply Broadcaster.foldl_applyOp_taskInvariant
  simp [Broadcaster.taskInvariant, Broadcaster.init]

/-- Whether a first `await token.wait()` returns immediately: true iff the
event's internal flag is already set. -/
def waitResolvesImmediately (b : Broadcaster) (e : Nat) : Prop :=
  e ∈ b.signaled

/-- **C6.** In every reachable broadcaster state, `subscribe()` returns a
token that no existing subscriber holds (fresh per call), registers it,
and creates it pre-signaled, so its first wait resolves immediately, for
any state of the producer signal. -/
theorem broadcaster_subscribe_fresh_presignaled (signal : Bool)
    (ops : List Broadcaster.Op) (b : Broadcaster)
    (hreach : b = ops.foldl Broadcaster.applyOp (Broadcaster.init signal)) :
    (b.subscribe).2 ∉ b.events ∧
    (b.subscribe).2 ∈ (b.subscribe).1.events ∧
    waitResolvesImmediately (b.subscribe).1 (b.subscribe).2 := by
  have hfresh : Broadcaster.tokensFresh b := by
    rw [hreach]
    apply Broadcaster.foldl_applyOp_tokensFresh
    intro t ht
    simp [Broadcaster.init] at ht
  refine ⟨?_, ?_, ?_⟩
  · intro hmem
    have := hfresh _ hmem
    simp only [Broadcaster.subscribe] at this
    omega
  · simp [Broadcaster.subscribe]
  · simp [waitResolvesImmediately, Broadcaster.subscribe]

/-- Witness for C6 after a concrete operation sequence (one subscriber
came and went, the producer fired, no signal ever delivered to the new
subscriber beforehand). -/
theorem broadcaster_subscribe_fresh_presignaled_witness :
    (([Broadcaster.Op.subscribe, Broadcaster.Op.unsubscribe 0,
        Broadcaster.Op.fire].foldl Broadcaster.applyOp
          (Broadcaster.init false)).subscribe).2
      ∉ ([Broadcaster.Op.subscribe, Broadcaster.Op.unsubscribe 0,
        Broadcaster.Op.fire].foldl Broadcaster.applyOp
          (Broadcaster.init false)).events ∧
    waitResolvesImmediately
      (([Broadcaster.Op.subscribe, Broadcaster.Op.unsubscribe 0,
        Broadcaster.Op.fire].foldl Broadcaster.applyOp
          (Broadcaster.init false)).subscribe).1
      (([Broadcaster.Op.subscribe, Broadcaster.Op.unsubscribe 0,
        Broadcaster.Op.fire].foldl Broadcaster.applyOp
          (Broadcaster.init false)).subscribe).2 := by
  have h := broadcaster_subscribe_fresh_presignaled false
    [Broadcaster.Op.subscribe, Broadcaster.Op.unsubscribe 0,
      Broadcaster.Op.fire] _ rfl
  exact ⟨h.1, h.2.2⟩

/-!
## SSE framing and generator (app/web/sse/decorator.py)

JSON-serializable Python payloads are modelled by `JsonValue`; `truthy`
is Python's truth test, which `_sse_event` applies to its `data` argument
(`if event and data: ... elif event: ... elif data: ...`).
-/

inductive JsonValue where
  | null : JsonValue
  | bool : Bool → JsonValue
  | num : Int → JsonValue
  | str : String → JsonValue
  | arr : List JsonValue → JsonValue
  | obj : List (String × JsonValue) → JsonValue
deriving Repr

/-- Python truthiness of a JSON-serializable value. -/
def truthy : JsonValue → Bool
  | .null => false
  | .bool b => b
  | .num n => decide (n ≠ 0)
  | .str s => decide (s ≠ "")
  | .arr xs => !xs.isEmpty
  | .obj xs => !xs.isEmpty

mutual

/-- `json.dumps` with its default separators (string escaping is not
modelled; payload strings are assumed escape-free). -/
def dumps : JsonValue → String
  | .null => "null"
  | .bool true => "true"
  | .bool false => "false"
  | .num n => toString n
  | .str s => "\"" ++ s ++ "\""
  | .arr xs => "[" ++ dumpsArr xs ++ "]"
  | .obj xs => "\x7b" ++ dumpsObj xs ++ "\x7d"

def dumpsArr : List JsonValue → String
  | [] => ""
  | [x] => dumps x
  | x :: y :: xs => dumps x ++ ", " ++ dumpsArr (y :: xs)

def dumpsObj : List (String × JsonValue) → String
  | [] => ""
  | [(k, v)] => "\"" ++ k ++ "\": " ++ dumps v
  | (k, v) :: y :: xs => "\"" ++ k ++ "\": " ++ dumps v ++ ", " ++ dumpsObj (y :: xs)

end

/-- The `SSEEvent` enumeration (decorator.py lines 25-36). -/
inductive SSEEvent where
  | heartbeat : SSEEvent
  | internal_error : SSEEvent
  | auth_error : SSEEvent
deriving Repr, DecidableEq

def SSEEvent.value : SSEEvent → String
  | .heartbeat => "heartbeat"
  | .internal_error => "internal_error"
  | .auth_error => "auth_error"

/-- `_sse_event` (decorator.py lines 55-78), including Python's truth
tests on the arguments: `if event and data`, `elif event`, `elif data`,
else the heartbeat message.  An enum member is always truthy, a falsy
`data` payload falls through. -/
def sseEvent (event : Option SSEEvent) (data : Option JsonValue) : String :=
  match event, data with
  | some e, some d =>
      if truthy d then "event: " ++ e.value ++ "\ndata: " ++ dumps d ++ "\n\n"
      else "event: " ++ e.value ++ "\n\n"
  | some e, none => "event: " ++ e.value ++ "\n\n"
  | none, some d =>
      if truthy d then "data: " ++ dumps d ++ "\n\n"
      else "event: " ++ SSEEvent.heartbeat.value ++ "\ndata: \x7b\x7d\n\n"
  | none, none => "event: " ++ SSEEvent.heartbeat.value ++ "\ndata: \x7b\x7d\n\n"

/-- The data accessor's result, which the generator resolves uniformly:
either an immediate value or an awaitable one (`_resolve_data_func`,
lines 81-91). -/
inductive DataResult where
  | imm : JsonValue → DataResult
  | deferred : JsonValue → DataResult
deriving Repr

def resolveData : DataResult → JsonValue
  | .imm v => v
  | .deferred v => v

/-- One loop turn's environment in `sse_generator` (lines 128-147): the
transport's disconnect answer, whether the token wait succeeded before
the heartbeat timeout, and the session-validity answer. -/
structure SSETick where
  disconnected : Bool
  wake : Bool
  session_active : Bool
deriving Repr, DecidableEq

/-- The frames `sse_generator` yields, tagged by the yielding call site;
`SSEFrame.wire` gives the serialized text of each. -/
inductive SSEFrame where
  | heartbeat : SSEFrame
  | dataUpdate : JsonValue → SSEFrame
  | authError : SSEFrame
deriving Repr

def SSEFrame.wire : SSEFrame → String
  | .heartbeat => sseEvent none none
  | .dataUpdate v => sseEvent none (some v)
  | .authError =>
      sseEvent (some SSEEvent.auth_error)
        (some (JsonValue.obj [("message", JsonValue.str "Unauthorized")]))

/-- The `sse_generator` loop (decorator.py lines 128-147) run over a
script of tick environments: stop silently on disconnect; on an active
tick, emit one `auth_error` frame and stop when protected and the session
is inactive, else emit a data frame on wake and a heartbeat on timeout. -/
def sseFrames (isProtected : Bool) (getData : DataResult) :
    List SSETick → List SSEFrame
  | [] => []
  | t :: rest =>
      if t.disconnected then []
      else if isProtected && !t.session_active then [SSEFrame.authError]
      else if t.wake then
        SSEFrame.dataUpdate (resolveData getData)
          :: sseFrames isProtected getData rest
      else
        SSEFrame.heartbeat :: sseFrames isProtected getData rest

/-- A tick on which the token wait timed out: client connected, no wake,
session valid. -/
def timeoutTick : SSETick :=
  { disconnected := false, wake := false, session_active := true }

/-- **C7.** A streaming handler whose token wait times out on all of 10
consecutive ticks emits exactly 10 heartbeat frames and zero data
frames. -/
theorem sse_ten_timeouts_ten_heartbeats (isProtected : Bool)
    (getData : DataResult) :
    sseFrames isProtected getData (List.replicate 10 timeoutTick)
        = List.replicate 10 SSEFrame.heartbeat ∧
    ((sseFrames isProtected getData (List.replicate 10 timeoutTick)).map
        SSEFrame.wire)
        = List.replicate 10 (sseEvent none none) ∧
    (sseFrames isProtected getData (List.replicate 10 timeoutTick)).countP
        (fun f => match f with | SSEFrame.dataUpdate _ => true | _ => false)
        = 0 := by
  have h1 : sseFrames isProtected getData (List.replicate 10 timeoutTick)
      = List.replicate 10 SSEFrame.heartbeat := by
    cases isProtected <;> rfl
  refine ⟨h1, ?_, ?_⟩
  · rw [h1]
    rfl
  · rw [h1]
    rfl

/-- **C8, counterexample.** The serialized frame for a data update whose
payload is the empty JSON object is not `data: <json-payload>\n\n`: the
Python truth test `elif data:` fails on a falsy payload and `_sse_event`
falls through to the heartbeat message. -/
theorem sse_data_frame_counterexample :
    SSEFrame.wire (SSEFrame.dataUpdate (JsonValue.obj []))
      ≠ "data: " ++ dumps (JsonValue.obj []) ++ "\n\n" := by
  decide

/-- **C8, amended.** A heartbeat is serialized exactly as
`event: heartbeat\ndata: \x7b\x7d\n\n`; a data update whose payload is
truthy in Python's sense is serialized exactly as
`data: <json-payload>\n\n` with no event field; a data update whose
payload is falsy falls through the `elif data:` test and is serialized
as the heartbeat frame instead; and the accessor's result is the payload
whether it was immediate or awaitable. -/
theorem sse_wire_format :
    SSEFrame.wire SSEFrame.heartbeat
        = "event: heartbeat\ndata: \x7b\x7d\n\n" ∧
    (∀ d : JsonValue, truthy d = true →
      SSEFrame.wire (SSEFrame.dataUpdate d)
        = "data: " ++ dumps d ++ "\n\n") ∧
    (∀ d : JsonValue, truthy d = false →
      SSEFrame.wire (SSEFrame.dataUpdate d)
        = "event: heartbeat\ndata: \x7b\x7d\n\n") ∧
    (∀ v : JsonValue,
      resolveData (DataResult.imm v) = v
        ∧ resolveData (DataResult.deferred v) = v) := by
  refine ⟨rfl, ?_, ?_, ?_⟩
  · intro d hd
    simp [SSEFrame.wire, sseEvent, hd]
  · intro d hd
    simp [SSEFrame.wire, sseEvent, hd]
    rfl
  · intro v
    exact ⟨rfl, rfl⟩

/-- Witness for the amended C8 at a concrete truthy payload and at the
falsy payload of the empty JSON object. -/
theorem sse_wire_format_witness :
    (truthy (JsonValue.obj [("message", JsonValue.str "ok")]) = true ∧
      SSEFrame.wire (SSEFrame.dataUpdate
          (JsonValue.obj [("message", JsonValue.str "ok")]))
        = "data: \x7b\"message\": \"ok\"\x7d\n\n") ∧
    (truthy (JsonValue.obj []) = false ∧
      SSEFrame.wire (SSEFrame.dataUpdate (JsonValue.obj []))
        = "event: heartbeat\ndata: \x7b\x7d\n\n") := by
  refine ⟨⟨rfl, ?_⟩, ⟨rfl, ?_⟩⟩
  · rw [sse_wire_format.2.1 (JsonValue.obj [("message", JsonValue.str "ok")]) rfl]
    rfl
  · exact sse_wire_format.2.2.1 (JsonValue.obj []) rfl
